import Mathlib

/-!
Shallow embedding of `Broker/broker/core.py`: a configuration-driven task
runner that pulls content from a source endpoint, folds it through an
ordered chain of interceptors, and pushes it to a destination endpoint.

Plugin instances are modelled as records carrying a capability list (the
base classes their Python type derives from) together with the behaviours
the core invokes (`pull`, `push`, `transform`).  Python's module universe
is a partial map from module name to a partial map from attribute name to
either a class (with its constructor) or a non-class attribute.  Python
exceptions become an explicit error type threaded through `Except`.
-/

set_option autoImplicit false

namespace Broker

/-- The exceptions that the core can raise.  `invalidIdentifier`,
`namespaceNotFound` and `constructionFailed` are the three ways
`ClassLoaderException` is raised in `core.py` (the constructor argument
records the identifier, resp. the wrapped constructor message);
`taskBuilderError` is `TaskBuilderException`; `keyError` is a Python
`KeyError` for the named missing configuration key. -/
inductive PyErr where
  | invalidIdentifier : String → PyErr
  | namespaceNotFound : String → PyErr
  | constructionFailed : String → PyErr
  | taskBuilderError : String → PyErr
  | keyError : String → PyErr
deriving DecidableEq, Repr

/-- `True` exactly for the `TaskBuilderException` variant. -/
def PyErr.isTaskBuilderError : PyErr → Bool
  | .taskBuilderError _ => true
  | _ => false

/-- `True` exactly for the three `ClassLoaderException` variants. -/
def PyErr.isClassLoaderError : PyErr → Bool
  | .invalidIdentifier _ => true
  | .namespaceNotFound _ => true
  | .constructionFailed _ => true
  | _ => false

/-- `True` exactly for a raw Python `KeyError`. -/
def PyErr.isKeyError : PyErr → Bool
  | .keyError _ => true
  | _ => false

/-- The four base classes the core tests with `issubclass`, plus the
logger base: `endpoints.EndpointBase`, `endpoints.SourceEndpointBase`,
`endpoints.DestinationEndpointBase`, `interceptors.InterceptorBase`,
`loggers.LoggerBase`. -/
inductive Capability where
  | endpointBase
  | sourceBase
  | destBase
  | interceptorBase
  | loggerBase
deriving DecidableEq, Repr

/-- A constructed plugin object over content type `α`: the set of base
classes of its runtime type, and its `pull`/`push`/`transform` methods
(each may raise; plugin-raised exceptions carry a message `String`). -/
structure Instance (α : Type) where
  caps : List Capability
  pull : Except String α
  push : α → Except String Unit
  transform : α → Except String α

/-- Model of `'sep' in s` on the character list of a Python string. -/
def hasChar (sep : Char) : List Char → Bool
  | [] => false
  | c :: rest => (c == sep) || hasChar sep rest

/-- Model of Python `s.rsplit(sep, maxsplit=1)` restricted to the case the
code uses: returns `some (before, after)` splitting at the LAST occurrence
of `sep`, and `none` when `sep` does not occur. -/
def rsplitLast (sep : Char) : List Char → Option (List Char × List Char)
  | [] => none
  | c :: rest =>
    match rsplitLast sep rest with
    | some (m, cl) => some (c :: m, cl)
    | none => if c == sep then some ([], rest) else none

/-- An endpoint specification from the configuration: the `'class'` key
(a fully qualified identifier) and the `'args'` key (a mapping of
constructor arguments in insertion order, values of type `V`). -/
structure EndpointSpec (V : Type) where
  className : String
  args : List (String × V)

/-- A class found in a module: its constructor receives the positional
arguments (only ever whole endpoint specifications in this code base) and
the keyword arguments (values are `Option V` because `task_name` may be
`None`), and either returns an instance or raises with a message. -/
structure ClassDef (V α : Type) where
  construct : List (EndpointSpec V) → List (String × Option V) → Except String (Instance α)

/-- A module attribute: either a class or some non-class object
(for which `inspect.isclass` is false). -/
inductive ModAttr (V α : Type) where
  | cls : ClassDef V α → ModAttr V α
  | nonClass : ModAttr V α

/-- The importable world: `modules name` is `none` when
`importlib.import_module` raises `ModuleNotFoundError`, otherwise the
module's attribute table (`hasattr`/`getattr`). -/
structure World (V α : Type) where
  modules : String → Option (String → Option (ModAttr V α))

namespace ClassLoader

/-- `ClassLoader.init_class`: constructs the class if it is a class,
returns `None` otherwise; any exception the constructor raises is wrapped
into `ClassLoaderException` ("Failed to load ... with message: ..."). -/
def init_class {V α : Type} (attr : ModAttr V α) (posArgs : List (EndpointSpec V))
    (kwargs : List (String × Option V)) : Except PyErr (Option (Instance α)) :=
  match attr with
  | .nonClass => .ok none
  | .cls c =>
    match c.construct posArgs kwargs with
    | .ok inst => .ok (some inst)
    | .error msg => .error (.constructionFailed msg)

/-- `ClassLoader.load`: rejects identifiers without a `'.'`
(`ClassLoaderException "... must be a full class name."`), splits at the
last `'.'` into module name and class name, imports the module
(`ClassLoaderException "Module specified in ... does not exist."` on
failure), then returns `None` when the module lacks the attribute, and
otherwise defers to `init_class`. -/
def load {V α : Type} (w : World V α) (full_class_name : String)
    (posArgs : List (EndpointSpec V)) (kwargs : List (String × Option V)) :
    Except PyErr (Option (Instance α)) :=
  match rsplitLast '.' full_class_name.data with
  | none => .error (.invalidIdentifier full_class_name)
  | some (moduleName, className) =>
    match w.modules (String.mk moduleName) with
    | none => .error (.namespaceNotFound full_class_name)
    | some moduleAttrs =>
      match moduleAttrs (String.mk className) with
      | none => .ok none
      | some attr => init_class attr posArgs kwargs

end ClassLoader

/-- The assembled `Task`: one source, one destination, and the interceptor
field exactly as `Task.__init__` stores it (`None` when the `interceptors`
key was absent, otherwise the built list). -/
structure Task (α : Type) where
  source : Instance α
  destination : Instance α
  interceptors : Option (List (Instance α))

/-- Python truthiness of `self.__interceptors`: `None` and `[]` are falsy,
a non-empty list is truthy. -/
def truthy {β : Type} : Option (List β) → Bool
  | none => false
  | some l => !l.isEmpty

/-- The loop of `Task.transform_content`: threads the content through each
interceptor's `transform` in list order, stopping at the first raised
exception. -/
def transform_content {α : Type} : List (Instance α) → α → Except String α
  | [], content => .ok content
  | interceptor :: rest, content =>
    match interceptor.transform content with
    | .ok content' => transform_content rest content'
    | .error e => .error e

/-- The body of `Task.execute` before the `@log_exception` decorator is
applied: pull, transform when the interceptor field is truthy, push.
`.ok c` means the run completed and `c` is the content that was pushed;
`.error e` means `pull`, a `transform` or `push` raised `e`. -/
def Task.executeRaw {α : Type} (t : Task α) : Except String α :=
  match t.source.pull with
  | .error e => .error e
  | .ok content =>
    match (if truthy t.interceptors
           then transform_content (t.interceptors.getD []) content
           else .ok content) with
    | .error e => .error e
    | .ok content' =>
      match t.destination.push content' with
      | .error e => .error e
      | .ok _ => .ok content'

/-- Modelled from the spec: the `@log_exception` decorator comes from
`broker/loggers.py`, which is not part of the provided sources; per the
spec, any error raised during `execute()` "is caught at the task boundary,
logged ... and does not propagate".  So a raised exception becomes a
logged `none` and the call returns normally. -/
def log_exception {α : Type} (r : Except String α) : Option α :=
  match r with
  | .ok a => some a
  | .error _ => none

/-- `Task.execute` as callers see it: the raw body wrapped in
`log_exception`; `some c` means `c` was pushed, `none` means the failure
was logged and swallowed. -/
def Task.execute {α : Type} (t : Task α) : Option α :=
  log_exception t.executeRaw

/-- The module-level `execute(tasks)` loop: runs every task in list order;
each entry of the result is what that task's `execute` returned. -/
def execute {α : Type} (tasks : List (Task α)) : List (Option α) :=
  tasks.map Task.execute

/-- Python dict assignment `d[k] = v`: replace the value at an existing
key in place, else append the new pair (insertion order). -/
def dictSet {β : Type} : List (String × β) → String → β → List (String × β)
  | [], k, v => [(k, v)]
  | (k', v') :: rest, k, v =>
    if k' == k then (k, v) :: rest else (k', v') :: dictSet rest k v

/-- Python dict lookup `d[k]` (first matching key). -/
def dictLookup {β : Type} : List (String × β) → String → Option β
  | [], _ => none
  | (k', v') :: rest, k => if k' == k then some v' else dictLookup rest k

/-- The loop `for key in args: kwargs[key] = args[key]` of
`TaskBuilder.__build_endpoint`: folds the explicit endpoint arguments into
the keyword dictionary, overriding on key collision. -/
def mergeArgs {V : Type} (kwargs : List (String × Option V))
    (args : List (String × V)) : List (String × Option V) :=
  args.foldl (fun d kv => dictSet d kv.1 (some kv.2)) kwargs

/-- A task specification from the configuration.  `source`/`destination`
are `none` when the key is absent (Python then raises `KeyError`);
`name` is `none` both when the `name` key is absent and when it is `None`
(the code treats the two identically); `interceptors` is `none` when the
key is absent. -/
structure TaskSpec (V : Type) where
  name : Option V
  source : Option (EndpointSpec V)
  destination : Option (EndpointSpec V)
  interceptors : Option (List String)

namespace TaskBuilder

/-- `TaskBuilder.__build_endpoint`: merges the explicit args over the
incoming kwargs, loads the class passing the whole endpoint specification
as an extra positional argument, and rejects a `None` result or an
instance that is not an `EndpointBase`. -/
def __build_endpoint {V α : Type} (w : World V α) (ep : EndpointSpec V)
    (kwargs : List (String × Option V)) : Except PyErr (Instance α × String) :=
  let kwargs' := mergeArgs kwargs ep.args
  match ClassLoader.load w ep.className [ep] kwargs' with
  | .error e => .error e
  | .ok none => .error (.taskBuilderError ("Could not load " ++ ep.className ++ " class."))
  | .ok (some endpoint) =>
    if Capability.endpointBase ∈ endpoint.caps then .ok (endpoint, ep.className)
    else .error (.taskBuilderError (ep.className ++ " class is not subclass of endpoints.EndpointBase"))

/-- `TaskBuilder.__build_source_endpoint`: builds the endpoint with
`task_name=name` as the initial kwargs and additionally requires
`SourceEndpointBase`. -/
def __build_source_endpoint {V α : Type} (w : World V α) (ep : EndpointSpec V)
    (name : Option V) : Except PyErr (Instance α) :=
  match __build_endpoint w ep [("task_name", name)] with
  | .error e => .error e
  | .ok (endpoint, cn) =>
    if Capability.sourceBase ∈ endpoint.caps then .ok endpoint
    else .error (.taskBuilderError (cn ++ " class is not subclass of endpoints.SourceEndpointBase"))

/-- `TaskBuilder.__build_destination_endpoint`: like the source variant
but requires `DestinationEndpointBase`. -/
def __build_destination_endpoint {V α : Type} (w : World V α) (ep : EndpointSpec V)
    (name : Option V) : Except PyErr (Instance α) :=
  match __build_endpoint w ep [("task_name", name)] with
  | .error e => .error e
  | .ok (endpoint, cn) =>
    if Capability.destBase ∈ endpoint.caps then .ok endpoint
    else .error (.taskBuilderError (cn ++ " class is not subclass of endpoints.DestinationEndpointBase"))

/-- `TaskBuilder.__build_interceptors`: loads each identifier with no
positional and no keyword arguments, requires `InterceptorBase` (a `None`
load result fails the same `issubclass` test), and preserves list order. -/
def __build_interceptors {V α : Type} (w : World V α) :
    List String → Except PyErr (List (Instance α))
  | [] => .ok []
  | iid :: rest =>
    match ClassLoader.load w iid [] [] with
    | .error e => .error e
    | .ok none => .error (.taskBuilderError (iid ++ " class is not subclass of interceptors.InterceptorBase"))
    | .ok (some interceptor) =>
      if Capability.interceptorBase ∈ interceptor.caps then
        match __build_interceptors w rest with
        | .error e => .error e
        | .ok l => .ok (interceptor :: l)
      else .error (.taskBuilderError (iid ++ " class is not subclass of interceptors.InterceptorBase"))

/-- The body of the per-task `try` block in `TaskBuilder.build`, in source
evaluation order: `_task['source']` (a `KeyError` when absent), build the
source endpoint, `_task['destination']`, build the destination endpoint,
then the optional interceptors. -/
def buildTask {V α : Type} (w : World V α) (t : TaskSpec V) : Except PyErr (Task α) :=
  match t.source with
  | none => .error (.keyError "source")
  | some sspec =>
    match __build_source_endpoint w sspec t.name with
    | .error e => .error e
    | .ok src =>
      match t.destination with
      | none => .error (.keyError "destination")
      | some dspec =>
        match __build_destination_endpoint w dspec t.name with
        | .error e => .error e
        | .ok dst =>
          match t.interceptors with
          | none => .ok ⟨src, dst, none⟩
          | some iids =>
            match __build_interceptors w iids with
            | .error e => .error e
            | .ok l => .ok ⟨src, dst, some l⟩

/-- The `except KeyError` clause of `TaskBuilder.build`: a `KeyError` is
re-raised as `TaskBuilderException(f"{e} not found in config file.")`
(Python renders `KeyError('source')` as `'source'`); every other
exception passes through unchanged. -/
def catchKeyError {γ : Type} (r : Except PyErr γ) : Except PyErr γ :=
  match r with
  | .error (.keyError k) => .error (.taskBuilderError ("'" ++ k ++ "' not found in config file."))
  | r => r

/-- `TaskBuilder.build`: processes the task specifications in order,
wrapping each per-task body in the `KeyError` handler; the first raised
exception aborts the whole build, so the accumulated list is discarded
and no tasks are returned. -/
def build {V α : Type} (w : World V α) : List (TaskSpec V) → Except PyErr (List (Task α))
  | [] => .ok []
  | spec :: rest =>
    match catchKeyError (buildTask w spec) with
    | .error e => .error e
    | .ok t =>
      match build w rest with
      | .error e => .error e
      | .ok ts => .ok (t :: ts)

end TaskBuilder

/-- The configuration module: the optional `LOGGER` attribute and the
optional `TASKS` attribute. -/
structure Config (V : Type) where
  LOGGER : Option String
  TASKS : Option (List (TaskSpec V))

/-- The process-wide logging sink `loggers.logger`: the default one, or a
custom instance installed at startup. -/
inductive LoggerSink (α : Type) where
  | default
  | custom : Instance α → LoggerSink α

/-- The logger block of `startup()`: when `config.LOGGER` exists, load it
with no arguments; install the result only when it is a `LoggerBase`
(a `None` result or a non-`LoggerBase` instance leaves the default sink);
an exception raised by the load propagates out of `startup`. -/
def install_logger {V α : Type} (w : World V α) (cfg : Config V) :
    Except PyErr (LoggerSink α) :=
  match cfg.LOGGER with
  | none => .ok .default
  | some lid =>
    match ClassLoader.load w lid [] [] with
    | .error e => .error e
    | .ok none => .ok .default
    | .ok (some logger) =>
      .ok (if Capability.loggerBase ∈ logger.caps then .custom logger else .default)

/-- The observable outcome of one `startup()` run: which logging sink
ended up installed, the process exit code, and one entry per executed
task (what that task's `execute` returned). -/
structure RunOutcome (α : Type) where
  sink : LoggerSink α
  exitCode : Int
  results : List (Option α)

/-- `startup()` composed with `get_tasks_from_config()`: install the
logger (an exception here crashes startup), then with no `TASKS`
attribute run zero tasks and exit 0; otherwise build, where any build
exception is caught by `get_tasks_from_config`, printed, and the process
exits with `-1` having executed no task; on a successful build every task
is executed in order and the process exits 0. -/
def startup {V α : Type} (w : World V α) (cfg : Config V) :
    Except PyErr (RunOutcome α) :=
  match install_logger (α := α) w cfg with
  | .error e => .error e
  | .ok sink =>
    match cfg.TASKS with
    | none => .ok ⟨sink, 0, []⟩
    | some specs =>
      match TaskBuilder.build w specs with
      | .error _ => .ok ⟨sink, -1, []⟩
      | .ok ts => .ok ⟨sink, 0, execute ts⟩

/-! ### Concrete fixtures

A small concrete plugin universe over content type `Nat` (and argument
type `Nat`), used to evaluate the definitions on closed inputs. -/

/-- A source plugin: pulls the content `5`. -/
def natSrc : Instance Nat :=
  ⟨[.endpointBase, .sourceBase], .ok 5, fun _ => .ok (), fun c => .ok c⟩

/-- A destination plugin: every push succeeds. -/
def natDst : Instance Nat :=
  ⟨[.endpointBase, .destBase], .error "no pull", fun _ => .ok (), fun c => .ok c⟩

/-- An interceptor plugin: adds one. -/
def natInc : Instance Nat :=
  ⟨[.interceptorBase], .error "no pull", fun _ => .ok (), fun c => .ok (c + 1)⟩

/-- An interceptor plugin: doubles. -/
def natDbl : Instance Nat :=
  ⟨[.interceptorBase], .error "no pull", fun _ => .ok (), fun c => .ok (c * 2)⟩

/-- A source plugin whose `pull` raises. -/
def natBadSrc : Instance Nat :=
  ⟨[.endpointBase, .sourceBase], .error "boom", fun _ => .ok (), fun c => .ok c⟩

/-- An object that is not a logger (empty capability set). -/
def natNonLogger : Instance Nat :=
  ⟨[], .error "no pull", fun _ => .ok (), fun c => .ok c⟩

/-- The attribute table of the module `pkg`. -/
def pkgModule : String → Option (ModAttr Nat Nat) := fun s =>
  if s = "Src" then some (.cls ⟨fun _ _ => .ok natSrc⟩)
  else if s = "Dst" then some (.cls ⟨fun _ _ => .ok natDst⟩)
  else if s = "Inc" then some (.cls ⟨fun _ _ => .ok natInc⟩)
  else if s = "Dbl" then some (.cls ⟨fun _ _ => .ok natDbl⟩)
  else if s = "BadSrc" then some (.cls ⟨fun _ _ => .ok natBadSrc⟩)
  else if s = "NLog" then some (.cls ⟨fun _ _ => .ok natNonLogger⟩)
  else none

/-- A world with the single importable module `pkg`. -/
def w₀ : World Nat Nat := ⟨fun m => if m = "pkg" then some pkgModule else none⟩

/-- A world with no importable modules at all. -/
def wEmpty : World Nat Nat := ⟨fun _ => none⟩

/-- A valid task specification: `pkg.Src` to `pkg.Dst` through
`pkg.Inc` then `pkg.Dbl`. -/
def spec₀ : TaskSpec Nat :=
  ⟨none, some ⟨"pkg.Src", []⟩, some ⟨"pkg.Dst", []⟩, some ["pkg.Inc", "pkg.Dbl"]⟩

/-- A task specification lacking `destination` whose source identifier
has no separator. -/
def specNoDot : TaskSpec Nat := ⟨none, some ⟨"nodot", []⟩, none, none⟩

/-- A task specification with a valid destination but a separator-free
source identifier. -/
def specNoDot2 : TaskSpec Nat := ⟨none, some ⟨"nodot2", []⟩, some ⟨"pkg.Dst", []⟩, none⟩

/-- A task specification lacking the `source` key. -/
def specNoSource : TaskSpec Nat := ⟨none, none, some ⟨"pkg.Dst", []⟩, none⟩

/-- A task specification with a valid source but lacking `destination`. -/
def specNoDest : TaskSpec Nat := ⟨none, some ⟨"pkg.Src", []⟩, none, none⟩

/-- A valid task specification whose source plugin's `pull` raises at
execution time. -/
def specBadPull : TaskSpec Nat :=
  ⟨none, some ⟨"pkg.BadSrc", []⟩, some ⟨"pkg.Dst", []⟩, none⟩

end Broker

/-! ### Theorems -/

namespace Broker

/-- `hasChar` on a cons, as an equation. -/
theorem hasChar_cons (sep c : Char) (rest : List Char) :
    hasChar sep (c :: rest) = ((c == sep) || hasChar sep rest) := rfl

/-- An identifier with no occurrence of the separator does not split. -/
theorem rsplitLast_eq_none_of_hasChar_false (sep : Char) :
    ∀ l : List Char, hasChar sep l = false → rsplitLast sep l = none := by
  intro l
  induction l with
  | nil => intro _; rfl
  | cons c rest ih =>
    intro h
    rw [hasChar_cons, Bool.or_eq_false_iff] at h
    simp [rsplitLast, ih h.2, h.1]

/-- An identifier that does not split has no occurrence of the separator. -/
theorem hasChar_false_of_rsplitLast_eq_none (sep : Char) :
    ∀ l : List Char, rsplitLast sep l = none → hasChar sep l = false := by
  intro l
  induction l with
  | nil => intro _; rfl
  | cons c rest ih =>
    intro h
    simp only [rsplitLast] at h
    split at h
    · exact absurd h (by simp)
    next hr =>
      split at h
      · exact absurd h (by simp)
      next hc =>
        rw [hasChar_cons, Bool.or_eq_false_iff]
        exact ⟨by simpa using hc, ih hr⟩

/-- `rsplitLast` splits at the last occurrence: the input is
`before ++ sep :: after` and `after` contains no further separator. -/
theorem rsplitLast_reconstruct (sep : Char) :
    ∀ l m cl : List Char, rsplitLast sep l = some (m, cl) →
      l = m ++ sep :: cl ∧ hasChar sep cl = false := by
  intro l
  induction l with
  | nil => intro m cl h; cases h
  | cons c rest ih =>
    intro m cl h
    simp only [rsplitLast] at h
    split at h
    next m' cl' hr =>
      injection h with h'
      injection h' with h1 h2
      subst h1; subst h2
      obtain ⟨ih1, ih2⟩ := ih m' cl' hr
      exact ⟨by rw [ih1]; simp, ih2⟩
    next hr =>
      split at h
      next hc =>
        injection h with h'
        injection h' with h1 h2
        subst h1; subst h2
        have hcs : c = sep := by simpa using hc
        subst hcs
        exact ⟨rfl, hasChar_false_of_rsplitLast_eq_none c rest hr⟩
      next => cases h

/-- Claim C6: for every plugin identifier containing no namespace
separator, `ClassLoader.load` fails with the `InvalidIdentifier` error
(`ClassLoaderException "... must be a full class name."`) and never
attempts to load any namespace — the result is the same in every module
world, so no module lookup is performed. -/
theorem C6_no_separator_invalid_identifier {V α : Type}
    (full : String) (h : hasChar '.' full.data = false)
    (w w' : World V α) (posArgs : List (EndpointSpec V))
    (kwargs : List (String × Option V)) :
    ClassLoader.load w full posArgs kwargs = .error (.invalidIdentifier full) ∧
    ClassLoader.load w full posArgs kwargs = ClassLoader.load w' full posArgs kwargs := by
  have hn := rsplitLast_eq_none_of_hasChar_false '.' full.data h
  refine ⟨?_, ?_⟩ <;> simp [ClassLoader.load, hn]

/-- Witness for C6 at the concrete identifier `"plainname"`, compared
across the populated world and the empty world. -/
theorem C6_witness :
    ClassLoader.load w₀ "plainname" [] [] = .error (.invalidIdentifier "plainname") ∧
    ClassLoader.load w₀ "plainname" [] [] = ClassLoader.load wEmpty "plainname" [] [] :=
  C6_no_separator_invalid_identifier "plainname" (by decide) w₀ wEmpty [] []

/-- Claim C7: for every identifier containing a separator, resolution
splits at the LAST separator occurrence: the input is
`namespace ++ separator :: typeName` with no separator in the type name
(so the namespace may itself contain separators), and `ClassLoader.load`
then consults exactly the module named by the part before the last
separator and the attribute named by the part after it. -/
theorem C7_split_at_last_separator :
    (∀ (sep : Char) (l m cl : List Char), rsplitLast sep l = some (m, cl) →
        l = m ++ sep :: cl ∧ hasChar sep cl = false) ∧
    (∀ (V α : Type) (w : World V α) (full : String) (m cl : List Char)
        (posArgs : List (EndpointSpec V)) (kwargs : List (String × Option V)),
        rsplitLast '.' full.data = some (m, cl) →
        (w.modules (String.mk m) = none →
          ClassLoader.load w full posArgs kwargs = .error (.namespaceNotFound full)) ∧
        (∀ attrs, w.modules (String.mk m) = some attrs →
          attrs (String.mk cl) = none →
          ClassLoader.load w full posArgs kwargs = .ok none)) := by
  refine ⟨fun sep l m cl h => rsplitLast_reconstruct sep l m cl h, ?_⟩
  intro V α w full m cl posArgs kwargs hsplit
  refine ⟨fun hmod => ?_, fun attrs hmod hattr => ?_⟩
  · simp [ClassLoader.load, hsplit, hmod]
  · simp [ClassLoader.load, hsplit, hmod, hattr]

/-- Witness for C7 at the identifier `"a.b.Cls"`, whose namespace
`"a.b"` itself contains the separator. -/
theorem C7_witness :
    ("a.b.Cls".data = "a.b".data ++ '.' :: "Cls".data ∧
      hasChar '.' "Cls".data = false) ∧
    ClassLoader.load wEmpty "a.b.Cls" [] [] = .error (.namespaceNotFound "a.b.Cls") :=
  ⟨C7_split_at_last_separator.1 '.' "a.b.Cls".data "a.b".data "Cls".data (by decide),
   (C7_split_at_last_separator.2 Nat Nat wEmpty "a.b.Cls" "a.b".data "Cls".data [] []
      (by decide)).1 rfl⟩

/-- Claim C2: for every task whose interceptor field is absent (`None`)
or the empty list, `execute` pushes exactly the content returned by
`pull`: the pushed value is the pulled value with no transform applied,
and the outcome is exactly the outcome of that single push. -/
theorem C2_zero_interceptors_pushes_pull {α : Type} (t : Task α) (c : α)
    (hi : t.interceptors = none ∨ t.interceptors = some [])
    (hp : t.source.pull = .ok c) :
    Task.executeRaw t = (match t.destination.push c with
                         | .ok _ => .ok c
                         | .error e => .error e) := by
  have ht : truthy t.interceptors = false := by
    rcases hi with h | h <;> simp [h, truthy]
  cases hq : t.destination.push c with
  | ok u => simp [Task.executeRaw, hp, ht, hq]
  | error e => simp [Task.executeRaw, hp, ht, hq]

/-- Witness for C2: a task with no interceptor field pushes the pulled
content `5` unmodified. -/
theorem C2_witness :
    Task.executeRaw (⟨natSrc, natDst, none⟩ : Task Nat) =
      (match natDst.push 5 with
       | .ok _ => .ok 5
       | .error e => .error e) :=
  C2_zero_interceptors_pushes_pull ⟨natSrc, natDst, none⟩ 5 (Or.inl rfl) rfl

/-- Claim C5: if a task's `pull`, any `transform`, or its `push` raises,
`execute` does not propagate the error (it returns normally, with the
failure logged as `none`), and in the module-level run loop every
task before and after it is still executed in order.  The containment
itself is modelled from the spec, since the `@log_exception` decorator's
source (`broker/loggers.py`) is not among the provided files. -/
theorem C5_execute_contains_failures {α : Type} (t : Task α) (e : String)
    (h : Task.executeRaw t = .error e) (pre post : List (Task α)) :
    Task.execute t = none ∧
    execute (pre ++ t :: post) = execute pre ++ none :: execute post := by
  have he : Task.execute t = none := by simp [Task.execute, log_exception, h]
  exact ⟨he, by simp [execute, he]⟩

/-- Witness for C5: a task whose `pull` raises is contained, and a
subsequent healthy task still runs. -/
theorem C5_witness :
    Task.execute (⟨natBadSrc, natDst, none⟩ : Task Nat) = none ∧
    execute ([] ++ (⟨natBadSrc, natDst, none⟩ : Task Nat) :: [⟨natSrc, natDst, none⟩]) =
      execute [] ++ none :: execute [⟨natSrc, natDst, none⟩] :=
  C5_execute_contains_failures ⟨natBadSrc, natDst, none⟩ "boom" rfl []
    [⟨natSrc, natDst, none⟩]

/-- `__build_interceptors` succeeds exactly with a list of the same
length whose `i`-th element is the instance loaded (with no arguments)
from the `i`-th configured identifier. -/
theorem build_interceptors_order {V α : Type} (w : World V α) :
    ∀ (iids : List String) (l : List (Instance α)),
      TaskBuilder.__build_interceptors w iids = .ok l →
      l.length = iids.length ∧
      ∀ i (h1 : i < iids.length) (h2 : i < l.length),
        ClassLoader.load w (iids.get ⟨i, h1⟩) [] [] = .ok (some (l.get ⟨i, h2⟩)) := by
  intro iids
  induction iids with
  | nil =>
    intro l h
    simp only [TaskBuilder.__build_interceptors] at h
    injection h with h'
    subst h'
    exact ⟨rfl, fun i h1 _ => absurd h1 (by simp)⟩
  | cons iid rest ih =>
    intro l h
    simp only [TaskBuilder.__build_interceptors] at h
    split at h
    · cases h
    · cases h
    next interceptor hload =>
      split at h
      next hcap =>
        split at h
        · cases h
        next l' hrest =>
          injection h with h'
          subst h'
          obtain ⟨hlen, hidx⟩ := ih l' hrest
          refine ⟨by simp [hlen], ?_⟩
          intro i h1 h2
          match i with
          | 0 => simpa using hload
          | Nat.succ j =>
            have h1' : j < rest.length := by simpa using h1
            have h2' : j < l'.length := by simpa using h2
            simpa using hidx j h1' h2'
      next => cases h

/-- Claim C1: for every task specification whose source and destination
resolve and validate (the per-task build succeeds), the built task's
interceptor sequence has the configured length and its `i`-th element is
the plugin loaded from the `i`-th configured identifier — configuration
order exactly; and executing any task with interceptor list `l` pushes
the result of threading the pulled content through every `transform` in
that order (`transform_content`). -/
theorem C1_interceptor_order_and_chain :
    (∀ (V α : Type) (w : World V α) (spec : TaskSpec V) (t : Task α)
        (iids : List String),
        TaskBuilder.buildTask w spec = .ok t → spec.interceptors = some iids →
        ∃ l, t.interceptors = some l ∧ l.length = iids.length ∧
          ∀ i (h1 : i < iids.length) (h2 : i < l.length),
            ClassLoader.load w (iids.get ⟨i, h1⟩) [] [] = .ok (some (l.get ⟨i, h2⟩))) ∧
    (∀ (α : Type) (t : Task α) (l : List (Instance α)) (c0 cN : α),
        t.interceptors = some l → t.source.pull = .ok c0 →
        transform_content l c0 = .ok cN → t.destination.push cN = .ok () →
        Task.executeRaw t = .ok cN) := by
  constructor
  · intro V α w spec t iids h hiids
    simp only [TaskBuilder.buildTask] at h
    split at h
    · cases h
    next sspec hs =>
      split at h
      · cases h
      next src hsrc =>
        split at h
        · cases h
        next dspec hd =>
          split at h
          · cases h
          next dst hdst =>
            split at h
            next heq => rw [hiids] at heq; cases heq
            next l hl =>
              rw [hiids] at hl
              injection hl with hl'
              subst hl'
              split at h
              · cases h
              next li hli =>
                injection h with h'
                subst h'
                exact ⟨li, rfl, build_interceptors_order w iids li hli⟩
  · intro α t l c0 cN hl hp htr hpush
    match l, htr with
    | [], htr =>
      have hc : c0 = cN := by
        simpa [transform_content] using htr
      subst hc
      have ht : truthy t.interceptors = false := by simp [hl, truthy]
      simp [Task.executeRaw, hp, ht, hpush]
    | i₀ :: l', htr =>
      simp [Task.executeRaw, hp, truthy, hl, htr, hpush]

/-- Witness for C1: building `spec₀` over `w₀` yields interceptors
`[natInc, natDbl]` in configuration order, and executing the built task
pushes `(5 + 1) * 2 = 12`. -/
theorem C1_witness :
    (∃ l, (⟨natSrc, natDst, some [natInc, natDbl]⟩ : Task Nat).interceptors = some l ∧
      l.length = (["pkg.Inc", "pkg.Dbl"] : List String).length ∧
      ∀ i (h1 : i < (["pkg.Inc", "pkg.Dbl"] : List String).length) (h2 : i < l.length),
        ClassLoader.load w₀ ((["pkg.Inc", "pkg.Dbl"] : List String).get ⟨i, h1⟩) [] [] =
          .ok (some (l.get ⟨i, h2⟩))) ∧
    Task.executeRaw (⟨natSrc, natDst, some [natInc, natDbl]⟩ : Task Nat) = .ok 12 :=
  ⟨C1_interceptor_order_and_chain.1 Nat Nat w₀ spec₀ ⟨natSrc, natDst, some [natInc, natDbl]⟩
      ["pkg.Inc", "pkg.Dbl"] rfl rfl,
   C1_interceptor_order_and_chain.2 Nat ⟨natSrc, natDst, some [natInc, natDbl]⟩
      [natInc, natDbl] 5 12 rfl rfl rfl rfl⟩

/-- `catchKeyError` lets a success through unchanged, so a caught build
step succeeded iff the uncaught one did. -/
theorem catchKeyError_ok_iff {γ : Type} (r : Except PyErr γ) (t : γ) :
    TaskBuilder.catchKeyError r = .ok t ↔ r = .ok t := by
  cases r with
  | ok a => simp [TaskBuilder.catchKeyError]
  | error e => cases e <;> simp [TaskBuilder.catchKeyError]

/-- A task specification lacking `source` or `destination` can never
build: the per-task body raises before producing a task. -/
theorem buildTask_ne_ok_of_missing_key {V α : Type} (w : World V α) (spec : TaskSpec V)
    (hmiss : spec.source = none ∨ spec.destination = none) (t : Task α) :
    TaskBuilder.buildTask w spec ≠ .ok t := by
  intro h
  simp only [TaskBuilder.buildTask] at h
  rcases hmiss with hs | hd
  · split at h
    next => cases h
    next sspec hsp => rw [hs] at hsp; cases hsp
  · split at h
    next => cases h
    next sspec hsp =>
      split at h
      · cases h
      next src hsrc =>
        split at h
        next => cases h
        next dspec hdp => rw [hd] at hdp; cases hdp

/-- Claim C3, amended: for every configuration in which some task
specification lacks `source` or `destination`, `build` fails and returns
no tasks at all (all-or-nothing, no partial task list); the failure is a
`TaskBuildError` naming the missing key when build reaches that key's
lookup — always for a missing `source`, and for a missing `destination`
provided building the source endpoint did not already raise (a resolver
error raised there surfaces instead, see the counterexample). -/
theorem C3_missing_key_aborts_build :
    (∀ (V α : Type) (w : World V α) (specs : List (TaskSpec V)) (spec : TaskSpec V),
        spec ∈ specs → (spec.source = none ∨ spec.destination = none) →
        ∃ e, TaskBuilder.build w specs = .error e) ∧
    (∀ (V α : Type) (w : World V α) (spec : TaskSpec V),
        spec.source = none →
        TaskBuilder.catchKeyError (TaskBuilder.buildTask (α := α) w spec) =
          .error (.taskBuilderError "'source' not found in config file.")) ∧
    (∀ (V α : Type) (w : World V α) (spec : TaskSpec V) (sspec : EndpointSpec V)
        (src : Instance α),
        spec.source = some sspec → spec.destination = none →
        TaskBuilder.__build_source_endpoint w sspec spec.name = .ok src →
        TaskBuilder.catchKeyError (TaskBuilder.buildTask w spec) =
          .error (.taskBuilderError "'destination' not found in config file.")) := by
  refine ⟨?_, ?_, ?_⟩
  · intro V α w specs spec
    induction specs with
    | nil => intro hmem _; cases hmem
    | cons s rest ih =>
      intro hmem hmiss
      cases hb : TaskBuilder.catchKeyError (TaskBuilder.buildTask (α := α) w s) with
      | error e => exact ⟨e, by simp [TaskBuilder.build, hb]⟩
      | ok t =>
        rcases List.mem_cons.mp hmem with h | h
        · subst h
          exact absurd ((catchKeyError_ok_iff _ _).mp hb)
            (buildTask_ne_ok_of_missing_key w spec hmiss t)
        · obtain ⟨e, he⟩ := ih h hmiss
          exact ⟨e, by simp [TaskBuilder.build, hb, he]⟩
  · intro V α w spec hs
    simp [TaskBuilder.buildTask, TaskBuilder.catchKeyError, hs]
  · intro V α w spec sspec src hs hd hsrc
    simp [TaskBuilder.buildTask, TaskBuilder.catchKeyError, hs, hd, hsrc]

/-- Counterexample to claim C3 as stated: this configuration's only task
specification lacks the `destination` key, yet `build` fails with the
resolver's `InvalidIdentifier` error (a `ClassLoaderException`), not a
`TaskBuildError` naming the missing key, because the source endpoint is
built before `_task['destination']` is ever read. -/
theorem C3_counterexample :
    TaskBuilder.build w₀ [specNoDot] = .error (.invalidIdentifier "nodot") ∧
    PyErr.isTaskBuilderError (.invalidIdentifier "nodot") = false :=
  ⟨rfl, rfl⟩

/-- Witness for the amended C3 on concrete configurations: a missing
`source` aborts the whole build; the raised errors name the missing
keys. -/
theorem C3_witness :
    (∃ e, TaskBuilder.build w₀ [specNoSource] = .error e) ∧
    TaskBuilder.catchKeyError (TaskBuilder.buildTask (α := Nat) w₀ specNoSource) =
      .error (.taskBuilderError "'source' not found in config file.") ∧
    TaskBuilder.catchKeyError (TaskBuilder.buildTask w₀ specNoDest) =
      .error (.taskBuilderError "'destination' not found in config file.") :=
  ⟨C3_missing_key_aborts_build.1 Nat Nat w₀ [specNoSource] specNoSource
      (by simp) (Or.inl rfl),
   C3_missing_key_aborts_build.2.1 Nat Nat w₀ specNoSource rfl,
   C3_missing_key_aborts_build.2.2 Nat Nat w₀ specNoDest ⟨"pkg.Src", []⟩ natSrc
      rfl rfl rfl⟩

/-- An error coming out of `catchKeyError` is never a raw `KeyError`:
the handler converts the `KeyError` variant and every other variant is
already not one. -/
theorem catchKeyError_error_not_keyError {γ : Type} (r : Except PyErr γ) (e : PyErr)
    (h : TaskBuilder.catchKeyError r = .error e) : e.isKeyError = false := by
  cases r with
  | ok a => simp [TaskBuilder.catchKeyError] at h
  | error e' =>
    cases e' <;> simp only [TaskBuilder.catchKeyError] at h <;>
      (injection h with h'; subst h'; rfl)

/-- Claim C4, amended: every error `build` raises is either a
`TaskBuildError` or one of the resolver's `ClassLoaderException` kinds —
never a raw `KeyError`; missing-key and capability failures surface as
`TaskBuildError`, but a resolver failure (`InvalidIdentifier`,
`NamespaceNotFound`, `ConstructionFailed`) propagates to `build`'s caller
as the resolver's own error, NOT wrapped into `TaskBuildError` (see the
counterexample). -/
theorem C4_build_error_kinds :
    (∀ (V α : Type) (w : World V α) (specs : List (TaskSpec V)) (e : PyErr),
        TaskBuilder.build (α := α) w specs = .error e →
        e.isKeyError = false ∧
          (e.isTaskBuilderError = true ∨ e.isClassLoaderError = true)) ∧
    (∀ (V α : Type) (w : World V α) (spec : TaskSpec V) (sspec : EndpointSpec V)
        (e : PyErr),
        spec.source = some sspec → e.isClassLoaderError = true →
        TaskBuilder.__build_source_endpoint (α := α) w sspec spec.name = .error e →
        TaskBuilder.build (α := α) w [spec] = .error e) ∧
    (∀ (V α : Type) (w : World V α) (ep : EndpointSpec V)
        (kwargs : List (String × Option V)) (inst : Instance α),
        ClassLoader.load w ep.className [ep] (mergeArgs kwargs ep.args) = .ok (some inst) →
        Capability.endpointBase ∉ inst.caps →
        TaskBuilder.__build_endpoint w ep kwargs =
          .error (.taskBuilderError
            (ep.className ++ " class is not subclass of endpoints.EndpointBase"))) := by
  refine ⟨?_, ?_, ?_⟩
  · intro V α w specs
    induction specs with
    | nil => intro e h; cases h
    | cons s rest ih =>
      intro e h
      simp only [TaskBuilder.build] at h
      split at h
      next e' hc =>
        injection h with h'
        subst h'
        have hk := catchKeyError_error_not_keyError _ _ hc
        exact ⟨hk, by cases e' <;> simp_all [PyErr.isKeyError,
          PyErr.isTaskBuilderError, PyErr.isClassLoaderError]⟩
      next t hc =>
        split at h
        next e' hr =>
          injection h with h'
          subst h'
          exact ih _ hr
        next => cases h
  · intro V α w spec sspec e hs hcl hsrc
    have hb : TaskBuilder.buildTask (α := α) w spec = .error e := by
      simp [TaskBuilder.buildTask, hs, hsrc]
    have hc : TaskBuilder.catchKeyError (TaskBuilder.buildTask (α := α) w spec) = .error e := by
      rw [hb]
      cases e <;> simp_all [TaskBuilder.catchKeyError, PyErr.isClassLoaderError]
    simp [TaskBuilder.build, hc]
  · intro V α w ep kwargs inst hload hcap
    simp [TaskBuilder.__build_endpoint, hload, hcap]

/-- Counterexample to claim C4 as stated: a source identifier without a
separator makes task assembly fail, but the error `build` raises to its
caller is the resolver's `InvalidIdentifier` (`ClassLoaderException`),
not a `TaskBuildError`: `build` only catches `KeyError`. -/
theorem C4_counterexample :
    TaskBuilder.build w₀ [specNoDot2] = .error (.invalidIdentifier "nodot2") ∧
    PyErr.isTaskBuilderError (.invalidIdentifier "nodot2") = false :=
  ⟨rfl, rfl⟩

/-- Witness for the amended C4 on concrete inputs: the error kinds of a
failed build, unwrapped resolver propagation, and a capability mismatch
surfacing as `TaskBuildError`. -/
theorem C4_witness :
    (PyErr.isKeyError (.invalidIdentifier "nodot2") = false ∧
      (PyErr.isTaskBuilderError (.invalidIdentifier "nodot2") = true ∨
        PyErr.isClassLoaderError (.invalidIdentifier "nodot2") = true)) ∧
    TaskBuilder.build w₀ [specNoDot2] = .error (.invalidIdentifier "nodot2") ∧
    TaskBuilder.__build_endpoint w₀ ⟨"pkg.NLog", []⟩ [] =
      .error (.taskBuilderError
        ("pkg.NLog" ++ " class is not subclass of endpoints.EndpointBase")) :=
  ⟨C4_build_error_kinds.1 Nat Nat w₀ [specNoDot2] (.invalidIdentifier "nodot2") rfl,
   C4_build_error_kinds.2.1 Nat Nat w₀ specNoDot2 ⟨"nodot2", []⟩
      (.invalidIdentifier "nodot2") rfl rfl rfl,
   C4_build_error_kinds.2.2 Nat Nat w₀ ⟨"pkg.NLog", []⟩ [] natNonLogger rfl
      (by decide)⟩

/-- Claim C8: if the configuration names a logger whose identifier loads
to an instance that is not a `LoggerBase`, the default logging sink
remains installed and startup continues exactly as it would with no
logger configured — the run is not aborted. -/
theorem C8_non_logger_keeps_default {V α : Type} (w : World V α) (cfg : Config V)
    (lid : String) (inst : Instance α)
    (hl : cfg.LOGGER = some lid)
    (hload : ClassLoader.load (V := V) w lid [] [] = .ok (some inst))
    (hcap : Capability.loggerBase ∉ inst.caps) :
    install_logger (α := α) w cfg = .ok .default ∧
    startup (α := α) w cfg = startup w { cfg with LOGGER := none } ∧
    ∃ out, startup (α := α) w cfg = .ok out ∧ out.sink = .default := by
  have h1 : install_logger (α := α) w cfg = .ok .default := by
    simp [install_logger, hl, hload, hcap]
  have h2 : install_logger (α := α) w { cfg with LOGGER := none } = .ok .default := by
    simp [install_logger]
  refine ⟨h1, by simp [startup, h1, h2], ?_⟩
  cases ht : cfg.TASKS with
  | none => exact ⟨⟨.default, 0, []⟩, by simp [startup, h1, ht], rfl⟩
  | some specs =>
    cases hb : TaskBuilder.build (α := α) w specs with
    | error e => exact ⟨⟨.default, -1, []⟩, by simp [startup, h1, ht, hb], rfl⟩
    | ok ts => exact ⟨⟨.default, 0, execute ts⟩, by simp [startup, h1, ht, hb], rfl⟩

/-- Witness for C8: `pkg.NLog` loads but is not a `LoggerBase`; the
default sink stays and startup proceeds as with no logger configured. -/
theorem C8_witness :
    install_logger (α := Nat) w₀ ⟨some "pkg.NLog", none⟩ = .ok .default ∧
    startup (α := Nat) w₀ ⟨some "pkg.NLog", none⟩ =
      startup w₀ { (⟨some "pkg.NLog", none⟩ : Config Nat) with LOGGER := none } ∧
    ∃ out, startup (α := Nat) w₀ ⟨some "pkg.NLog", none⟩ = .ok out ∧
      out.sink = .default :=
  C8_non_logger_keeps_default w₀ ⟨some "pkg.NLog", none⟩ "pkg.NLog" natNonLogger
    rfl rfl (by decide)

/-- Claim C9: with a task list configured and the logger step done, the
process exits 0 whenever the build succeeds — every built task is run
and each contributes its own (possibly failed-and-logged) result — and
exits with the non-zero code `-1` on a fatal build failure, executing no
task at all.  The containment that keeps a failing task from crashing
the run relies on `log_exception`, modelled from the spec. -/
theorem C9_exit_codes {V α : Type} (w : World V α) (cfg : Config V)
    (specs : List (TaskSpec V)) (sink : LoggerSink α)
    (htasks : cfg.TASKS = some specs)
    (hsink : install_logger (α := α) w cfg = .ok sink) :
    (∀ ts, TaskBuilder.build w specs = .ok ts →
        startup (α := α) w cfg = .ok ⟨sink, 0, execute ts⟩) ∧
    (∀ e, TaskBuilder.build (α := α) w specs = .error e →
        startup (α := α) w cfg = .ok ⟨sink, -1, []⟩ ∧ (-1 : Int) ≠ 0) := by
  constructor
  · intro ts hb
    simp [startup, hsink, htasks, hb]
  · intro e hb
    exact ⟨by simp [startup, hsink, htasks, hb], by decide⟩

/-- Witness for C9: a run whose single task fails internally still exits
0 with the failure logged, and a run whose single task specification
lacks `source` exits -1 with no task executed. -/
theorem C9_witness :
    startup (α := Nat) w₀ ⟨none, some [specBadPull]⟩ =
      .ok ⟨.default, 0, execute [⟨natBadSrc, natDst, none⟩]⟩ ∧
    (startup (α := Nat) w₀ ⟨none, some [specNoSource]⟩ = .ok ⟨.default, -1, []⟩ ∧
      (-1 : Int) ≠ 0) :=
  ⟨(C9_exit_codes w₀ ⟨none, some [specBadPull]⟩ [specBadPull] .default rfl rfl).1
      [⟨natBadSrc, natDst, none⟩] rfl,
   (C9_exit_codes w₀ ⟨none, some [specNoSource]⟩ [specNoSource] .default rfl rfl).2
      (.taskBuilderError "'source' not found in config file.") rfl⟩

/-- Setting a key makes lookup at that key return the new value. -/
theorem dictLookup_dictSet_self {β : Type} (d : List (String × β)) (k : String) (v : β) :
    dictLookup (dictSet d k v) k = some v := by
  induction d with
  | nil => simp [dictSet, dictLookup]
  | cons p rest ih =>
    obtain ⟨k₁, v₁⟩ := p
    cases h : (k₁ == k) with
    | true => simp [dictSet, h, dictLookup]
    | false => simp [dictSet, h, dictLookup, ih]

/-- Setting a key leaves lookup at every other key unchanged. -/
theorem dictLookup_dictSet_ne {β : Type} (d : List (String × β)) (k k' : String) (v : β)
    (h : k' ≠ k) : dictLookup (dictSet d k v) k' = dictLookup d k' := by
  induction d with
  | nil =>
    have : (k == k') = false := by simpa using fun he => h he.symm
    simp [dictSet, dictLookup, this]
  | cons p rest ih =>
    obtain ⟨k₁, v₁⟩ := p
    cases h1 : (k₁ == k) with
    | true =>
      have hke : k₁ = k := by simpa using h1
      have : (k == k') = false := by simpa using fun he => h he.symm
      simp [dictSet, h1, dictLookup, this, hke]
    | false => simp [dictSet, h1, dictLookup, ih]

/-- Folding arguments whose keys avoid `k` does not change lookup at
`k`. -/
theorem mergeArgs_lookup_of_not_key {V : Type} :
    ∀ (args : List (String × V)) (kwargs : List (String × Option V)) (k : String),
      k ∉ args.map Prod.fst →
      dictLookup (mergeArgs kwargs args) k = dictLookup kwargs k := by
  intro args
  induction args with
  | nil => intro kwargs k _; rfl
  | cons p rest ih =>
    intro kwargs k hk
    obtain ⟨k₁, v₁⟩ := p
    simp only [List.map_cons, List.mem_cons, not_or] at hk
    have hstep : mergeArgs kwargs ((k₁, v₁) :: rest) =
        mergeArgs (dictSet kwargs k₁ (some v₁)) rest := rfl
    rw [hstep, ih _ k hk.2]
    exact dictLookup_dictSet_ne _ _ _ _ hk.1

/-- With no duplicate argument keys, every explicit argument ends up in
the merged keyword dictionary at its own key. -/
theorem mergeArgs_lookup_of_mem {V : Type} :
    ∀ (args : List (String × V)) (kwargs : List (String × Option V)) (k : String) (v : V),
      (args.map Prod.fst).Nodup → (k, v) ∈ args →
      dictLookup (mergeArgs kwargs args) k = some (some v) := by
  intro args
  induction args with
  | nil => intro _ _ _ _ hm; cases hm
  | cons p rest ih =>
    intro kwargs k v hnd hm
    obtain ⟨k₁, v₁⟩ := p
    have hnd' : k₁ ∉ rest.map Prod.fst ∧ (rest.map Prod.fst).Nodup := by
      simpa [List.nodup_cons] using hnd
    have hstep : mergeArgs kwargs ((k₁, v₁) :: rest) =
        mergeArgs (dictSet kwargs k₁ (some v₁)) rest := rfl
    rcases List.mem_cons.mp hm with heq | hmem
    · injection heq with h1 h2
      subst h1; subst h2
      rw [hstep, mergeArgs_lookup_of_not_key rest _ k hnd'.1]
      exact dictLookup_dictSet_self _ _ _
    · rw [hstep]
      exact ih _ k v hnd'.2 hmem

/-- Claim C10: when an endpoint's class resolves, its constructor is
invoked with the whole endpoint specification as the single positional
argument and with the keyword dictionary obtained by folding the
explicit `args` over `task_name=name` — so explicit arguments override
the implicit `task_name` on collision, and `task_name` holds the task's
name otherwise; an interceptor's constructor is invoked with no
positional and no keyword arguments at all. -/
theorem C10_constructor_arguments :
    (∀ (V α : Type) (w : World V α) (ep : EndpointSpec V) (name : Option V)
        (m cl : List Char) (attrs : String → Option (ModAttr V α))
        (c : ClassDef V α) (inst : Instance α),
        rsplitLast '.' ep.className.data = some (m, cl) →
        w.modules (String.mk m) = some attrs →
        attrs (String.mk cl) = some (.cls c) →
        c.construct [ep] (mergeArgs [("task_name", name)] ep.args) = .ok inst →
        Capability.endpointBase ∈ inst.caps →
        TaskBuilder.__build_endpoint w ep [("task_name", name)] = .ok (inst, ep.className)) ∧
    (∀ (V : Type) (args : List (String × V)) (name : Option V),
        (args.map Prod.fst).Nodup →
        (∀ k v, (k, v) ∈ args →
            dictLookup (mergeArgs [("task_name", name)] args) k = some (some v)) ∧
        ("task_name" ∉ args.map Prod.fst →
            dictLookup (mergeArgs [("task_name", name)] args) "task_name" = some name)) ∧
    (∀ (V α : Type) (w : World V α) (iid : String) (m cl : List Char)
        (attrs : String → Option (ModAttr V α)) (c : ClassDef V α) (inst : Instance α),
        rsplitLast '.' iid.data = some (m, cl) →
        w.modules (String.mk m) = some attrs →
        attrs (String.mk cl) = some (.cls c) →
        c.construct [] [] = .ok inst →
        Capability.interceptorBase ∈ inst.caps →
        TaskBuilder.__build_interceptors w [iid] = .ok [inst]) := by
  refine ⟨?_, ?_, ?_⟩
  · intro V α w ep name m cl attrs c inst hsplit hmod hattr hcons hcap
    simp [TaskBuilder.__build_endpoint, ClassLoader.load, ClassLoader.init_class,
      hsplit, hmod, hattr, hcons, hcap]
  · intro V args name hnd
    refine ⟨fun k v hm => mergeArgs_lookup_of_mem args _ k v hnd hm, fun hk => ?_⟩
    rw [mergeArgs_lookup_of_not_key args _ _ hk]
    simp [dictLookup]
  · intro V α w iid m cl attrs c inst hsplit hmod hattr hcons hcap
    simp [TaskBuilder.__build_interceptors, ClassLoader.load, ClassLoader.init_class,
      hsplit, hmod, hattr, hcons, hcap]

/-- Witness for C10 on concrete inputs: `pkg.Src` built with one
explicit argument and a task name, the merged keyword dictionary, and a
parameterless interceptor construction. -/
theorem C10_witness :
    TaskBuilder.__build_endpoint w₀ ⟨"pkg.Src", [("x", 3)]⟩ [("task_name", some 7)] =
      .ok (natSrc, "pkg.Src") ∧
    (∀ k v, (k, v) ∈ ([("x", 3)] : List (String × Nat)) →
        dictLookup (mergeArgs [("task_name", some 7)] [("x", 3)]) k = some (some v)) ∧
    dictLookup (mergeArgs [("task_name", (some 7 : Option Nat))] [("x", 3)]) "task_name" =
      some (some 7) ∧
    TaskBuilder.__build_interceptors w₀ ["pkg.Inc"] = .ok [natInc] :=
  ⟨C10_constructor_arguments.1 Nat Nat w₀ ⟨"pkg.Src", [("x", 3)]⟩ (some 7)
      "pkg".data "Src".data pkgModule ⟨fun _ _ => .ok natSrc⟩ natSrc
      (by decide) rfl rfl rfl (by decide),
   (C10_constructor_arguments.2.1 Nat [("x", 3)] (some 7) (by decide)).1,
   (C10_constructor_arguments.2.1 Nat [("x", 3)] (some 7) (by decide)).2 (by decide),
   C10_constructor_arguments.2.2 Nat Nat w₀ "pkg.Inc" "pkg".data "Inc".data
      pkgModule ⟨fun _ _ => .ok natInc⟩ natInc (by decide) rfl rfl rfl (by decide)⟩

end Broker
